import Mathlib

/-!
Shallow embedding of the CoinMarketCap data-pipeline notebook
(`src/CoinMarketCap.ipynb`): the API-call wrapper, the JSON flattening and
column sanitization of the save-CSV cell, the upload / warehouse / cleanup
cells as a sequential run over explicit inputs, and the first analytical
query. Theorems settle the specification claims against these definitions.
-/

namespace CoinMarketCap

/-! ### Column sanitization: `x.strip().replace('.', '_')` -/

/-- ASCII whitespace stripped by Python `str.strip()`. -/
def isPySpace (c : Char) : Bool :=
  c = ' ' || c = '\t' || c = '\n' || c = '\x0d' || c = '\x0b' || c = '\x0c'

/-- Python `str.strip()` on the character list: drop whitespace from both ends. -/
def pyStrip (l : List Char) : List Char :=
  ((l.dropWhile isPySpace).reverse.dropWhile isPySpace).reverse

/-- The character map underlying `replace('.', '_')`. -/
def dotToUnderscore (c : Char) : Char :=
  if c = '.' then '_' else c

/-- Python `str.replace('.', '_')`: with a one-character pattern this is a
character-wise map. -/
def pyReplaceDot (l : List Char) : List Char :=
  l.map dotToUnderscore

/-- The column-name sanitization of the save-CSV cell:
`x.strip().replace('.', '_')`. -/
def sanitize (s : String) : String :=
  String.mk (pyReplaceDot (pyStrip s.data))

/-! ### Flattening: `json_normalize` on the `data` array -/

/-- A JSON value as the flattener sees it: a scalar leaf or a nested object.
Arrays do not occur at this level (spec section 9 leaves them undefined). -/
inductive JValue where
  | scalar (v : String)
  | obj (fields : List (String × JValue))

/-- One record of the API response data array: a JSON object. -/
abbrev JRecord := List (String × JValue)

mutual

/-- Leaves of a JSON value keyed by dotted path, as json_normalize names them. -/
def flattenVal (path : String) : JValue → List (String × String)
  | .scalar v => [(path, v)]
  | .obj fs => flattenFields path fs

/-- Flattened leaves of an object's field list under a path prefix. -/
def flattenFields (path : String) : List (String × JValue) → List (String × String)
  | [] => []
  | (k, v) :: rest => flattenVal (path ++ "." ++ k) v ++ flattenFields path rest

end

/-- Flatten a top-level record: nested fields become dotted paths. -/
def flattenRecord : JRecord → List (String × String)
  | [] => []
  | (k, v) :: rest => flattenVal k v ++ flattenRecord rest

/-- A dataframe cell: none models the pandas NaN of a missing key. -/
abbrev Cell := Option String

/-- A pandas dataframe: column labels plus rows of cells. -/
structure DataFrame where
  columns : List String
  rows : List (List Cell)

/-- Add keys to the column universe in first-seen order, skipping duplicates. -/
def addKeys (acc : List String) (ks : List String) : List String :=
  ks.foldl (fun a k => if k ∈ a then a else a ++ [k]) acc

/-- Column universe of a batch of flattened records: union in first-seen order. -/
def columnUnion (flats : List (List (String × String))) : List String :=
  flats.foldl (fun acc f => addKeys acc (f.map Prod.fst)) []

/-- Model of pandas json_normalize on a list of records: one row per record,
columns the first-seen union of flattened key paths, missing keys NaN. -/
def json_normalize (recs : List JRecord) : DataFrame :=
  let flats := recs.map flattenRecord
  let cols := columnUnion flats
  { columns := cols
    rows := flats.map (fun f => cols.map (fun c => f.lookup c)) }

/-- A dataframe after fillna: every cell is a plain string. -/
structure StrFrame where
  columns : List String
  rows : List (List String)

/-- The save-CSV cell after the fetch succeeded: json_normalize, then sanitize
the column labels, then fillna with the empty-string sentinel. -/
def step2_normalize (recs : List JRecord) : StrFrame :=
  let df := json_normalize recs
  { columns := df.columns.map sanitize
    rows := df.rows.map (fun r => r.map (fun c => c.getD "")) }

/-! ### Warehouse table: create with overwrite, then load with append -/

/-- Warehouse table state: schema plus loaded rows. -/
structure Table where
  schema : List String
  rows : List (List String)
deriving DecidableEq

/-- Model of bq.Table(...).create(schema, overwrite): with overwrite true the
table is recreated empty; with overwrite false an existing table is kept. -/
def createTable (schema : List String) (overwrite : Bool) :
    Option Table → Option Table
  | some t => if overwrite then some { schema := schema, rows := [] } else some t
  | none => some { schema := schema, rows := [] }

/-- Model of table.load(bucket_path, mode='append'): append the CSV rows. -/
def loadAppend (csv : List (List String)) : Option Table → Option Table
  | some t => some { t with rows := t.rows ++ csv }
  | none => none

/-- Modelled from the spec: the single replace-table-contents operation that
section 9 names as the intended meaning of create-overwrite then append-load. -/
def replaceTableContents (schema : List String) (csv : List (List String)) :
    Option Table → Option Table :=
  fun _ => some { schema := schema, rows := csv }

/-! ### The sequential run over the notebook cells -/

/-- Outcome of the requests.request call inside api_call: either the request
raises a RequestException or an HTTP response comes back. -/
inductive FetchOutcome where
  | transportError
  | httpResponse (status : Nat) (errorMessage : String) (payload : List JRecord)

/-- An HTTP response object as the later cells use it. -/
structure Response where
  status_code : Nat
  errorMessage : String
  payload : List JRecord

/-- Observable events of a run, in order: log lines, prints, shell copies,
file writes and warehouse calls. -/
inductive Event where
  | logInfo (msg : String)
  | logError (msg : String)
  | printed (msg : String)
  | gsutilCp (src dst : String)
  | writeLocalCsv
  | createDataset (name : String)
  | createTableEv (name : String)
  | loadTableEv (name : String)
  | bashCleanupCell
deriving DecidableEq

/-- How the run ends: all cells executed, exit(1), or an uncaught Python
exception (the attribute read response.status_code on None). -/
inductive Outcome where
  | completed
  | exited (code : Nat)
  | raisedAttributeError
deriving DecidableEq

def bucket_name : String := "coin-market-cap-bucket"

def csv_file_name : String := "cmc_data.csv"

def log_file_name : String := "coinmarketcap.log"

def local_path : String := "/tmp/" ++ csv_file_name

def bucket_path : String := "gs://" ++ bucket_name ++ "/cryptocurrency-data/" ++ csv_file_name

def log_bucket_path : String := "gs://" ++ bucket_name ++ "/config/" ++ log_file_name

/-- Model of api_call: a RequestException is caught and printed, and the
function falls through returning None; otherwise the response is returned. -/
def api_call : FetchOutcome → Option Response × List Event
  | .transportError => (none, [Event.printed "RequestException"])
  | .httpResponse s m d => (some ⟨s, m, d⟩, [])

/-- External inputs of one run: what the network did and whether the
post-upload existence check finds the object. -/
structure RunInput where
  fetch : FetchOutcome
  bucketObjectExists : Bool

/-- One run of the notebook, cell by cell: logging setup and api_call, the
save-CSV cell guarded by status_code, the unguarded upload cell with its
existence check and exit(1), the warehouse cell whose create and load sit
inside the status_code guard but whose step-4 and script-end log lines sit
outside it, the log transfer, and the bash cleanup cell. Reading
status_code on a None response raises AttributeError and halts the run. -/
def runPipeline (inp : RunInput) : List Event × Outcome :=
  let startEv := [Event.logInfo "############### SCRIPT START ###############"]
  let fetched := api_call inp.fetch
  let ev1 := startEv ++ fetched.2 ++
    [Event.logInfo "Step 1 - Pull CoinMarketCap API data - Complete"]
  match fetched.1 with
  | none => (ev1, Outcome.raisedAttributeError)
  | some resp =>
    let ev2 :=
      if resp.status_code ≠ 200 then
        ev1 ++ [Event.printed ("Error fetching CoinMarketCap API data. " ++ resp.errorMessage),
                Event.logError ("Error fetching CoinMarketCap API data. " ++ resp.errorMessage)]
      else
        ev1 ++ [Event.writeLocalCsv, Event.logInfo "Step 2 - Save CSV File - Complete"]
    let ev3 := ev2 ++ [Event.gsutilCp local_path bucket_path]
    if ¬ inp.bucketObjectExists then
      (ev3 ++ [Event.printed "File not successfully uploaded to bucket. Issue logged",
               Event.logError (csv_file_name ++ " was not uploaded to bucket successfully.")],
       Outcome.exited 1)
    else
      let ev4 := ev3 ++ [Event.logInfo "Step 3 - Upload to GCS Bucket - Complete"]
      let ev5 :=
        if resp.status_code = 200 then
          ev4 ++ [Event.createDataset "cryptocurrency",
                  Event.createTableEv "cryptocurrency.coin_data",
                  Event.loadTableEv "cryptocurrency.coin_data"]
        else ev4
      let ev6 := ev5 ++ [Event.logInfo "Step 4 - Insert into BigQuery Table - Complete",
                         Event.logInfo "############### SCRIPT END ###############"]
      let ev7 := ev6 ++ [Event.gsutilCp log_file_name log_bucket_path]
      (ev7 ++ [Event.bashCleanupCell], Outcome.completed)

/-! ### Query 1 -/

/-- One row of the warehouse table as query 1 reads it. -/
structure CoinRow where
  name : String
  quote_usd_price : ℚ
deriving DecidableEq

/-- Query 1: select count(name) from coin_data where quote_usd_price > 8000. -/
def coins_gt_8k (tbl : List CoinRow) : Nat :=
  (tbl.filter (fun r => 8000 < r.quote_usd_price)).length

/-- Two example records for evaluating the flattener: the second record
lacks the nested key path q.p that the first record has. -/
def demoRecs : List JRecord :=
  [[("a", JValue.scalar "1"), ("q", JValue.obj [("p", JValue.scalar "2")])],
   [("a", JValue.scalar "3")]]

/-! Helper lemmas for idempotence of `sanitize`. -/

theorem dropWhile_self_of_head (p : Char → Bool) :
    ∀ m : List Char, (∀ a, m.head? = some a → p a = false) → m.dropWhile p = m := by
  intro m h
  cases m with
  | nil => rfl
  | cons a t =>
    have ha : p a = false := h a rfl
    simp [List.dropWhile, ha]

theorem head_dropWhile_false (p : Char → Bool) :
    ∀ l : List Char, ∀ a, (l.dropWhile p).head? = some a → p a = false := by
  intro l
  induction l with
  | nil => intro a h; simp [List.dropWhile] at h
  | cons b t ih =>
    intro a h
    by_cases hb : p b
    · rw [List.dropWhile_cons_of_pos hb] at h
      exact ih a h
    · rw [List.dropWhile_cons_of_neg hb] at h
      simp at h
      subst h
      simpa using hb

theorem dropWhile_append_exists (p : Char → Bool) :
    ∀ l : List Char, ∃ pre, l = pre ++ l.dropWhile p := by
  intro l
  induction l with
  | nil => exact ⟨[], rfl⟩
  | cons a t ih =>
    by_cases ha : p a
    · obtain ⟨pre, hpre⟩ := ih
      refine ⟨a :: pre, ?_⟩
      rw [List.dropWhile_cons_of_pos ha]
      simpa using hpre
    · exact ⟨[], by rw [List.dropWhile_cons_of_neg ha]; rfl⟩

theorem dropWhile_idem (p : Char → Bool) (l : List Char) :
    (l.dropWhile p).dropWhile p = l.dropWhile p := by
  apply dropWhile_self_of_head
  exact head_dropWhile_false p l

/-- `pyStrip` is idempotent. -/
theorem pyStrip_idem (l : List Char) : pyStrip (pyStrip l) = pyStrip l := by
  unfold pyStrip
  set A := l.dropWhile isPySpace with hA
  set C := A.reverse.dropWhile isPySpace with hC
  -- heads of `C.reverse` fail `isPySpace`, because `C.reverse` is a prefix of `A`
  have hBfix : C.reverse.dropWhile isPySpace = C.reverse := by
    apply dropWhile_self_of_head
    intro a h
    obtain ⟨pre, hpre⟩ := dropWhile_append_exists isPySpace A.reverse
    have hAform : A = C.reverse ++ pre.reverse := by
      have := congrArg List.reverse hpre
      simpa [hC] using this
    have hAhead : A.head? = some a := by
      rw [hAform]
      cases hcr : C.reverse with
      | nil => rw [hcr] at h; simp at h
      | cons x xs =>
        rw [hcr] at h
        simp at h
        simp [hcr, h]
    exact head_dropWhile_false isPySpace l a (by rw [← hA]; exact hAhead)
  rw [hBfix, List.reverse_reverse, dropWhile_idem]

theorem pyReplaceDot_idem (l : List Char) :
    pyReplaceDot (pyReplaceDot l) = pyReplaceDot l := by
  unfold pyReplaceDot
  rw [List.map_map]
  congr 1
  funext c
  by_cases h : c = '.'
  · simp [dotToUnderscore, h]
  · simp [dotToUnderscore, h]

theorem isPySpace_dotToUnderscore (c : Char) :
    isPySpace (dotToUnderscore c) = isPySpace c := by
  by_cases h : c = '.'
  · subst h; rfl
  · simp [dotToUnderscore, h]

theorem comp_isPySpace : isPySpace ∘ dotToUnderscore = isPySpace := by
  funext c
  exact isPySpace_dotToUnderscore c

theorem pyStrip_pyReplaceDot (l : List Char) :
    pyStrip (pyReplaceDot l) = pyReplaceDot (pyStrip l) := by
  unfold pyStrip pyReplaceDot
  rw [List.dropWhile_map, comp_isPySpace, ← List.map_reverse, List.dropWhile_map,
    comp_isPySpace, ← List.map_reverse]

/-- C7 (claim): sanitization is idempotent and leaves no period. -/
theorem sanitize_props (s : String) :
    sanitize (sanitize s) = sanitize s ∧ ('.' ∉ (sanitize s).data) := by
  constructor
  · have h1 : sanitize (sanitize s) =
        String.mk (pyReplaceDot (pyStrip (pyReplaceDot (pyStrip s.data)))) := rfl
    rw [h1, pyStrip_pyReplaceDot, pyStrip_idem, pyReplaceDot_idem]
    rfl
  · intro hmem
    have : ∃ c ∈ pyStrip s.data, dotToUnderscore c = '.' := by
      simpa [sanitize, pyReplaceDot] using hmem
    obtain ⟨c, _, hc⟩ := this
    by_cases h : c = '.'
    · subst h
      simp [dotToUnderscore] at hc
    · rw [dotToUnderscore, if_neg h] at hc
      exact h hc

/-! ### Warehouse refresh semantics -/

/-- C3: creating the table with overwrite true and then loading the CSV with
append mode leaves exactly the CSV rows for any prior table state; the
composition equals the single replace-table-contents operation of the spec. -/
theorem create_overwrite_then_append_is_replace
    (prior : Option Table) (schema : List String) (csv : List (List String)) :
    loadAppend csv (createTable schema true prior) =
      some { schema := schema, rows := csv } ∧
    loadAppend csv (createTable schema true prior) =
      replaceTableContents schema csv prior := by
  cases prior <;> simp [createTable, loadAppend, replaceTableContents]

/-! ### Query 1 semantics -/

/-- C8: query 1 counts rows with price strictly greater than 8000: adding a
row priced exactly 8000 leaves the count unchanged, adding one priced
8000.01 raises it by one, and the example table with prices 100, 9000,
8000.01, 7999 yields 2. -/
theorem coins_gt_8k_strict (tbl : List CoinRow) (r r2 : CoinRow)
    (h8000 : r.quote_usd_price = 8000)
    (h801 : r2.quote_usd_price = 800001 / 100) :
    coins_gt_8k (r :: tbl) = coins_gt_8k tbl ∧
    coins_gt_8k (r2 :: tbl) = coins_gt_8k tbl + 1 ∧
    coins_gt_8k [⟨"btc", 100⟩, ⟨"eth", 9000⟩, ⟨"xrp", 800001 / 100⟩,
      ⟨"ada", 7999⟩] = 2 := by
  refine ⟨?_, ?_, ?_⟩
  · simp [coins_gt_8k, h8000]
  · rw [coins_gt_8k, coins_gt_8k, List.filter_cons_of_pos]
    · simp
    · simp only [h801]
      norm_num
  · rw [coins_gt_8k]
    rw [List.filter_cons_of_neg (by norm_num), List.filter_cons_of_pos (by norm_num),
      List.filter_cons_of_pos (by norm_num), List.filter_cons_of_neg (by norm_num)]
    rfl

/-- Witness for C8 at a concrete table and rows. -/
theorem coins_gt_8k_strict_witness :
    coins_gt_8k [⟨"a", 8000⟩] = coins_gt_8k [] ∧
    coins_gt_8k [⟨"b", 800001 / 100⟩] = coins_gt_8k [] + 1 ∧
    coins_gt_8k [⟨"btc", 100⟩, ⟨"eth", 9000⟩, ⟨"xrp", 800001 / 100⟩,
      ⟨"ada", 7999⟩] = 2 :=
  coins_gt_8k_strict [] ⟨"a", 8000⟩ ⟨"b", 800001 / 100⟩ rfl rfl

/-! ### Pipeline control flow -/

/-- C1 counterexample: in a run whose fetch returned HTTP status 400, the
storage-upload step still runs: the gsutil copy of the CSV to the bucket
appears in the trace, contradicting the claim that after a failed fetch the
storage-upload step does not run. -/
theorem upload_runs_despite_fetch_failure :
    Event.gsutilCp local_path bucket_path ∈
      (runPipeline { fetch := .httpResponse 400 "err" [],
                     bucketObjectExists := true }).1 := by
  simp [runPipeline, api_call]

/-- C1 amended: the steps run in their fixed order, but only the warehouse
create and load are gated on the fetch: for every run whose fetch produced
an HTTP response, the upload copy runs regardless of the status; the
load event appears iff the status is 200 (given the existence check
passes); when the existence check fails the run exits 1 with no warehouse
event; and on a transport error the run halts with an AttributeError. -/
theorem pipeline_gating (status : Nat) (msg : String) (payload : List JRecord)
    (b : Bool) :
    Event.gsutilCp local_path bucket_path ∈
      (runPipeline { fetch := .httpResponse status msg payload,
                     bucketObjectExists := b }).1 ∧
    (Event.loadTableEv "cryptocurrency.coin_data" ∈
        (runPipeline { fetch := .httpResponse status msg payload,
                       bucketObjectExists := true }).1 ↔ status = 200) ∧
    Event.loadTableEv "cryptocurrency.coin_data" ∉
      (runPipeline { fetch := .httpResponse status msg payload,
                     bucketObjectExists := false }).1 ∧
    (runPipeline { fetch := .httpResponse status msg payload,
                   bucketObjectExists := false }).2 = Outcome.exited 1 ∧
    (runPipeline { fetch := .transportError, bucketObjectExists := b }).2 =
      Outcome.raisedAttributeError := by
  refine ⟨?_, ?_, ?_, ?_, rfl⟩
  · cases b <;> by_cases h : status = 200 <;> simp [runPipeline, api_call, h]
  · by_cases h : status = 200 <;> simp [runPipeline, api_call, h]
  · by_cases h : status = 200 <;> simp [runPipeline, api_call, h]
  · by_cases h : status = 200 <;> simp [runPipeline, api_call, h]

/-- C2: when the post-upload existence check fails, the run logs the
upload-failure error, exits with code 1, and no warehouse create or load
event ever happens; when the object exists, the run logs step-3
completion. -/
theorem upload_verification (status : Nat) (msg : String)
    (payload : List JRecord) :
    (runPipeline { fetch := .httpResponse status msg payload,
                   bucketObjectExists := false }).2 = Outcome.exited 1 ∧
    Event.logError (csv_file_name ++ " was not uploaded to bucket successfully.") ∈
      (runPipeline { fetch := .httpResponse status msg payload,
                     bucketObjectExists := false }).1 ∧
    Event.createTableEv "cryptocurrency.coin_data" ∉
      (runPipeline { fetch := .httpResponse status msg payload,
                     bucketObjectExists := false }).1 ∧
    Event.loadTableEv "cryptocurrency.coin_data" ∉
      (runPipeline { fetch := .httpResponse status msg payload,
                     bucketObjectExists := false }).1 ∧
    Event.logInfo "Step 3 - Upload to GCS Bucket - Complete" ∈
      (runPipeline { fetch := .httpResponse status msg payload,
                     bucketObjectExists := true }).1 := by
  refine ⟨?_, ?_, ?_, ?_, ?_⟩ <;>
    by_cases h : status = 200 <;> simp [runPipeline, api_call, h]

/-- C4 counterexample: on a transport-level error the fetch returns None and
the very next cell halts with an uncaught AttributeError at the status_code
read: the downstream steps do not cleanly detect the absence of a usable
response, they crash. -/
theorem transport_error_crashes_downstream :
    (api_call .transportError).1 = none ∧
    (runPipeline { fetch := .transportError, bucketObjectExists := true }).2 =
      Outcome.raisedAttributeError :=
  ⟨rfl, rfl⟩

/-- C4 amended: the RequestException is caught inside api_call, printed and
not re-raised, and None flows back to the caller; the downstream status
check then raises an AttributeError instead of aborting cleanly, and the
run stops right after the step-1 log line for either existence-check
value. -/
theorem transport_error_behavior (b : Bool) :
    (api_call .transportError).1 = none ∧
    Event.printed "RequestException" ∈ (api_call .transportError).2 ∧
    (runPipeline { fetch := .transportError, bucketObjectExists := b }).2 =
      Outcome.raisedAttributeError ∧
    (runPipeline { fetch := .transportError, bucketObjectExists := b }).1 =
      [Event.logInfo "############### SCRIPT START ###############",
       Event.printed "RequestException",
       Event.logInfo "Step 1 - Pull CoinMarketCap API data - Complete"] :=
  ⟨rfl, by simp [api_call], rfl, rfl⟩

/-- C9 counterexample: in a run whose fetch succeeded but whose post-upload
existence check failed, the run exits with code 1 before the cleanup cell:
the local CSV and log file are not deleted on that exit path. -/
theorem no_cleanup_on_failed_upload_exit :
    (runPipeline { fetch := .httpResponse 200 "" [],
                   bucketObjectExists := false }).2 = Outcome.exited 1 ∧
    Event.bashCleanupCell ∉
      (runPipeline { fetch := .httpResponse 200 "" [],
                     bucketObjectExists := false }).1 := by
  refine ⟨rfl, ?_⟩
  simp [runPipeline, api_call]

/-- C9 amended: the cleanup cell runs exactly on runs that execute every
cell: it runs when the fetch produced a response and the existence check
passed, and it never runs on the exit(1) path nor on the transport-error
path. -/
theorem cleanup_only_on_completed_runs (status : Nat) (msg : String)
    (payload : List JRecord) (b : Bool) :
    Event.bashCleanupCell ∈
      (runPipeline { fetch := .httpResponse status msg payload,
                     bucketObjectExists := true }).1 ∧
    Event.bashCleanupCell ∉
      (runPipeline { fetch := .httpResponse status msg payload,
                     bucketObjectExists := false }).1 ∧
    Event.bashCleanupCell ∉
      (runPipeline { fetch := .transportError, bucketObjectExists := b }).1 := by
  refine ⟨?_, ?_, ?_⟩ <;>
    by_cases h : status = 200 <;> simp [runPipeline, api_call, h]

/-- C10: on every run that reaches the warehouse cell, the step-4 completion
line and the script-end line are logged even when the status is not 200 and
the table create and load were skipped: a step-4 log entry does not imply
the load executed. -/
theorem step4_logged_unconditionally (status : Nat) (msg : String)
    (payload : List JRecord) (h : status ≠ 200) :
    Event.logInfo "Step 4 - Insert into BigQuery Table - Complete" ∈
      (runPipeline { fetch := .httpResponse status msg payload,
                     bucketObjectExists := true }).1 ∧
    Event.logInfo "############### SCRIPT END ###############" ∈
      (runPipeline { fetch := .httpResponse status msg payload,
                     bucketObjectExists := true }).1 ∧
    Event.createTableEv "cryptocurrency.coin_data" ∉
      (runPipeline { fetch := .httpResponse status msg payload,
                     bucketObjectExists := true }).1 ∧
    Event.loadTableEv "cryptocurrency.coin_data" ∉
      (runPipeline { fetch := .httpResponse status msg payload,
                     bucketObjectExists := true }).1 := by
  refine ⟨?_, ?_, ?_, ?_⟩ <;> simp [runPipeline, api_call, h]

/-- Witness for C10 at status 400. -/
theorem step4_logged_unconditionally_witness :
    Event.logInfo "Step 4 - Insert into BigQuery Table - Complete" ∈
      (runPipeline { fetch := .httpResponse 400 "err" [],
                     bucketObjectExists := true }).1 ∧
    Event.logInfo "############### SCRIPT END ###############" ∈
      (runPipeline { fetch := .httpResponse 400 "err" [],
                     bucketObjectExists := true }).1 ∧
    Event.createTableEv "cryptocurrency.coin_data" ∉
      (runPipeline { fetch := .httpResponse 400 "err" [],
                     bucketObjectExists := true }).1 ∧
    Event.loadTableEv "cryptocurrency.coin_data" ∉
      (runPipeline { fetch := .httpResponse 400 "err" [],
                     bucketObjectExists := true }).1 :=
  step4_logged_unconditionally 400 "err" [] (by decide)

/-! ### Flattener shape and sentinel -/

theorem toFinset_map_eq_image (g : String → String) (l : List String) :
    (l.map g).toFinset = l.toFinset.image g := by
  induction l with
  | nil => rfl
  | cons a t ih => simp [List.toFinset_cons, Finset.image_insert, ih]

theorem addKeys_toFinset (ks : List String) :
    ∀ acc : List String, (addKeys acc ks).toFinset = acc.toFinset ∪ ks.toFinset := by
  induction ks with
  | nil => intro acc; simp [addKeys]
  | cons k ks ih =>
    intro acc
    have h : addKeys acc (k :: ks) =
        addKeys (if k ∈ acc then acc else acc ++ [k]) ks := rfl
    rw [h, ih]
    by_cases hk : k ∈ acc
    · rw [if_pos hk, List.toFinset_cons, Finset.union_insert,
        Finset.insert_eq_self.mpr (Finset.mem_union_left _ (List.mem_toFinset.mpr hk))]
    · rw [if_neg hk, List.toFinset_append, List.toFinset_cons]
      ext x
      simp
      tauto

theorem foldl_addKeys_toFinset (flats : List (List (String × String))) :
    ∀ acc : List String,
      (flats.foldl (fun a f => addKeys a (f.map Prod.fst)) acc).toFinset =
        flats.foldl (fun s f => s ∪ (f.map Prod.fst).toFinset) acc.toFinset := by
  induction flats with
  | nil => intro acc; rfl
  | cons f fs ih =>
    intro acc
    rw [List.foldl_cons, List.foldl_cons, ih, addKeys_toFinset]

theorem image_foldl_union (g : String → String)
    (flats : List (List (String × String))) :
    ∀ s : Finset String,
      Finset.image g (flats.foldl (fun t f => t ∪ (f.map Prod.fst).toFinset) s) =
        flats.foldl (fun t f => t ∪ ((f.map Prod.fst).map g).toFinset)
          (Finset.image g s) := by
  induction flats with
  | nil => intro s; rfl
  | cons f fs ih =>
    intro s
    rw [List.foldl_cons, List.foldl_cons, ih, Finset.image_union,
      toFinset_map_eq_image]

/-- C5: for every batch of N records, step2_normalize yields exactly N rows
and a column set equal to the union over the records of their flattened key
paths after sanitization. -/
theorem normalize_shape (recs : List JRecord) :
    (step2_normalize recs).rows.length = recs.length ∧
    (step2_normalize recs).columns.toFinset =
      recs.foldl
        (fun s rec =>
          s ∪ (((flattenRecord rec).map Prod.fst).map sanitize).toFinset) ∅ := by
  constructor
  · simp [step2_normalize, json_normalize]
  · show ((columnUnion (recs.map flattenRecord)).map sanitize).toFinset = _
    rw [toFinset_map_eq_image, columnUnion, foldl_addKeys_toFinset,
      List.toFinset_nil, image_foldl_union, Finset.image_empty, List.foldl_map]

theorem lookup_eq_none_of_not_mem_keys (k : String)
    (l : List (String × String)) (h : k ∉ l.map Prod.fst) : l.lookup k = none := by
  induction l with
  | nil => rfl
  | cons p t ih =>
    obtain ⟨a, b⟩ := p
    simp only [List.map_cons, List.mem_cons] at h
    push_neg at h
    have hne : (k == a) = false := beq_eq_false_iff_ne.mpr h.1
    simp [List.lookup, hne, ih h.2]

/-- C6: a record lacking a key path that the column universe has still
yields a row of full width, with the empty-string sentinel in that column:
the missing value is never an error and never an absent cell. -/
theorem missing_field_sentinel (recs : List JRecord) (i j : Nat)
    (rec : JRecord) (col : String)
    (hrec : recs[i]? = some rec)
    (hcol : (json_normalize recs).columns[j]? = some col)
    (hmiss : col ∉ (flattenRecord rec).map Prod.fst) :
    ∃ row, (step2_normalize recs).rows[i]? = some row ∧
      row.length = (step2_normalize recs).columns.length ∧
      row[j]? = some "" := by
  have hrows : (step2_normalize recs).rows[i]? =
      some (((json_normalize recs).columns).map
        (fun c => ((flattenRecord rec).lookup c).getD "")) := by
    show (((recs.map flattenRecord).map
        (fun f => (json_normalize recs).columns.map (fun c => f.lookup c))).map
          (fun r => r.map (fun c => c.getD "")))[i]? = _
    rw [List.getElem?_map, List.getElem?_map, List.getElem?_map, hrec]
    simp [List.map_map, Function.comp]
  refine ⟨_, hrows, ?_, ?_⟩
  · show (((json_normalize recs).columns).map
        (fun c => ((flattenRecord rec).lookup c).getD "")).length =
      ((json_normalize recs).columns.map sanitize).length
    rw [List.length_map, List.length_map]
  · rw [List.getElem?_map, hcol]
    simp [lookup_eq_none_of_not_mem_keys col (flattenRecord rec) hmiss]

/-- Witness for C6: the second demo record lacks the nested path q.p, and
its row carries the empty-string sentinel in that column. -/
theorem missing_field_sentinel_witness :
    ∃ row, (step2_normalize demoRecs).rows[1]? = some row ∧
      row.length = (step2_normalize demoRecs).columns.length ∧
      row[1]? = some "" :=
  missing_field_sentinel demoRecs 1 1 [("a", JValue.scalar "3")] "q.p"
    rfl rfl (by decide)

end CoinMarketCap
